import Mathlib

/-!
# Verification of VirtualC64 cartridge banking and VIA 6522 logic

Shallow embedding of `src/C64/Cartridge.cpp` and `src/C64/VIA6522.cpp`.
Machine integers are modelled as `Nat` with explicit wrap-around (`% 2^w`)
where the C++ code can overflow; byte buffers are `List Nat`.
Outward collaborator calls (CPU IRQ line, IEC bus, floppy mechanics) do not
change the component state; where a claim needs them they are modelled as an
explicit event list.
-/

set_option maxRecDepth 100000

namespace VC64

/-! ## Cartridge (src/C64/Cartridge.cpp)

The cartridge owns 64 optional chip images (`chip[i]`, with placement
metadata `chipStartAddress[i]` / `chipSize[i]`), a 32KB overlay buffer
`rom`, a 16-entry per-4KB-block flag array `blendedIn` and the
`lastBlendedIn` fast-path index. -/

structure Cartridge where
  gameLine : Bool
  exromLine : Bool
  chip : List (Option (List Nat))
  chipStartAddress : List Nat
  chipSize : List Nat
  rom : List Nat
  blendedIn : List Nat
  lastBlendedIn : Nat
deriving DecidableEq, Repr

/-- The freshly constructed cartridge (constructor `Cartridge::Cartridge`):
lines true, buffers zeroed, `lastBlendedIn = 255`, all 64 slots empty. -/
def Cartridge.init : Cartridge where
  gameLine := true
  exromLine := true
  chip := List.replicate 64 none
  chipStartAddress := List.replicate 64 0
  chipSize := List.replicate 64 0
  rom := List.replicate 32768 0
  blendedIn := List.replicate 16 0
  lastBlendedIn := 255

/-- `memcpy(dst + off, src, src.length)` on a byte buffer. -/
def writeBytes (dst : List Nat) (off : Nat) (src : List Nat) : List Nat :=
  dst.take off ++ src ++ dst.drop (off + src.length)

/-- The loop `for (i = lo; i < hi; i++) l[i] = v;`, carrying the index of the
head element in `i`. -/
def setRangeAux (i lo hi v : Nat) : List Nat → List Nat
  | [] => []
  | x :: xs => (if lo ≤ i ∧ i < hi then v else x) :: setRangeAux (i + 1) lo hi v xs

def setRange (l : List Nat) (lo hi v : Nat) : List Nat :=
  setRangeAux 0 lo hi v l

/-- `Cartridge::bankIn`: no-op when `nr == lastBlendedIn`; otherwise copies the
chip bytes into `rom` at `start - 0x8000`, sets the `blendedIn` flags for the
blocks `start >> 12 ≤ i < end >> 12` (`end = start + size` as `uint16_t`; the
source asserts `0xFFFF - start >= size`, so the addition does not wrap there)
and records `lastBlendedIn = nr`. -/
def Cartridge.bankIn (c : Cartridge) (nr : Nat) : Cartridge :=
  if nr = c.lastBlendedIn then c
  else
    let start := c.chipStartAddress.getD nr 0
    let size := c.chipSize.getD nr 0
    let theEnd := (start + size) % 65536
    { c with
      rom := writeBytes c.rom (start - 0x8000) ((c.chip.getD nr none).getD []),
      blendedIn := setRange c.blendedIn (start >>> 12) (theEnd >>> 12) 1,
      lastBlendedIn := nr }

/-- `Cartridge::bankOut`: clears the `blendedIn` flags for the chip's block
range; touches neither `rom` nor `lastBlendedIn`. -/
def Cartridge.bankOut (c : Cartridge) (nr : Nat) : Cartridge :=
  let start := c.chipStartAddress.getD nr 0
  let size := c.chipSize.getD nr 0
  let theEnd := (start + size) % 65536
  { c with blendedIn := setRange c.blendedIn (start >>> 12) (theEnd >>> 12) 0 }

/-- `Cartridge::loadChip`: rejects `start < 0x8000` and `0xFFFF - start < size`
(leaving the cartridge untouched), otherwise replaces slot `nr` with a copy of
the first `size` source bytes and its placement metadata. -/
def Cartridge.loadChip (c : Cartridge) (nr start size : Nat) (data : List Nat) :
    Cartridge :=
  if start < 0x8000 then c
  else if 0xFFFF - start < size then c
  else
    { c with
      chip := c.chip.set nr (some (data.take size)),
      chipStartAddress := c.chipStartAddress.set nr start,
      chipSize := c.chipSize.set nr size }

/-! ### Serialization (`stateSize` / `loadFromBuffer` / `saveToBuffer`)

The primitive byte accessors `read8/read16/write8/write16/readBlock/writeBlock`
live in the repository's `basic.h`, which is not under `src/`. -/

/-- Modelled from the spec: `write8` from `basic.h` — one byte, truncated to 8
bits. -/
def write8 (v : Nat) : List Nat := [v % 256]

/-- Modelled from the spec: `write16` from `basic.h` — a 16-bit value as two
bytes, little-endian (spec §6: "`chipStartAddress[i]`(2B LE)"). -/
def write16 (v : Nat) : List Nat := [v % 256, v / 256 % 256]

/-- Modelled from the spec: `read8` from `basic.h` — consumes one byte. -/
def read8 : List Nat → Nat × List Nat
  | [] => (0, [])
  | b :: rest => (b, rest)

/-- Modelled from the spec: `read16` from `basic.h` — consumes two bytes,
little-endian. -/
def read16 (bs : List Nat) : Nat × List Nat :=
  let (lo, bs1) := read8 bs
  let (hi, bs2) := read8 bs1
  (lo + 256 * hi, bs2)

/-- Modelled from the spec: `readBlock` from `basic.h` — consumes `n` raw
bytes. -/
def readBlock (n : Nat) (bs : List Nat) : List Nat × List Nat :=
  (bs.take n, bs.drop n)

/-- `Cartridge::stateSize`: `2` + per-slot `4 + chipSize[i]` + `sizeof(rom)` +
`sizeof(blendedIn)` + `1`. -/
def Cartridge.stateSize (c : Cartridge) : Nat :=
  c.chipSize.foldl (fun acc z => acc + (4 + z)) 2 + 32768 + 16 + 1

/-- The 64-iteration slot loop of `Cartridge::saveToBuffer`: per slot the start
address (16 bit), the size (16 bit), and the chip bytes when the size is
positive. -/
def saveChips : List Nat → List Nat → List (Option (List Nat)) → List Nat
  | a :: as, z :: zs, d :: ds =>
      write16 a ++ write16 z ++ (if 0 < z then (d.getD []) else []) ++
        saveChips as zs ds
  | _, _, _ => []

/-- The 64-iteration slot loop of `Cartridge::loadFromBuffer`: per slot read
the start address and the size, then the chip bytes when the size is
positive. -/
def loadChips : Nat → List Nat →
    (List Nat × List Nat × List (Option (List Nat))) × List Nat
  | 0, bs => (([], [], []), bs)
  | n + 1, bs =>
      let pa := read16 bs
      let pz := read16 pa.2
      let d := if 0 < pz.1 then some (readBlock pz.1 pz.2).1 else none
      let bs3 := if 0 < pz.1 then (readBlock pz.1 pz.2).2 else pz.2
      let rest := loadChips n bs3
      ((pa.1 :: rest.1.1, pz.1 :: rest.1.2.1, d :: rest.1.2.2), rest.2)

/-- `Cartridge::saveToBuffer`: game/exrom lines as bytes, the 64 chip slots,
then the raw `rom`, `blendedIn` and `lastBlendedIn`. -/
def Cartridge.saveToBuffer (c : Cartridge) : List Nat :=
  write8 (if c.gameLine then 1 else 0) ++ write8 (if c.exromLine then 1 else 0) ++
    saveChips c.chipStartAddress c.chipSize c.chip ++
    c.rom ++ c.blendedIn ++ write8 c.lastBlendedIn

/-- `Cartridge::loadFromBuffer`; returns the rebuilt cartridge and the bytes
left unconsumed. -/
def Cartridge.loadFromBuffer (bs : List Nat) : Cartridge × List Nat :=
  let pg := read8 bs
  let pe := read8 pg.2
  let ps := loadChips 64 pe.2
  let pr := readBlock 32768 ps.2
  let pb := readBlock 16 pr.2
  let pl := read8 pb.2
  ({ gameLine := pg.1 != 0, exromLine := pe.1 != 0,
     chip := ps.1.2.2, chipStartAddress := ps.1.1, chipSize := ps.1.2.1,
     rom := pr.1, blendedIn := pb.1, lastBlendedIn := pl.1 }, pl.2)

/-- Slot-table consistency maintained by the C++ code: a slot holds a chip
buffer exactly when its recorded size is positive, and the buffer's length is
that size (`malloc(chipSize[i])`). -/
def chipsMatch : List Nat → List (Option (List Nat)) → Prop
  | [], [] => True
  | z :: zs, none :: ds => z = 0 ∧ chipsMatch zs ds
  | z :: zs, some l :: ds => 0 < z ∧ l.length = z ∧ chipsMatch zs ds
  | _, _ => False

instance chipsMatchDec : ∀ zs ds, Decidable (chipsMatch zs ds)
  | [], [] => by unfold chipsMatch; infer_instance
  | [], _ :: _ => by unfold chipsMatch; infer_instance
  | _ :: _, [] => by unfold chipsMatch; infer_instance
  | _ :: zs, none :: ds =>
      have := chipsMatchDec zs ds
      by unfold chipsMatch; infer_instance
  | _ :: zs, some _ :: ds =>
      have := chipsMatchDec zs ds
      by unfold chipsMatch; infer_instance

/-- The representation invariants the C++ field types and allocation discipline
give every reachable cartridge: fixed array lengths, 16-bit placement values,
an 8-bit `lastBlendedIn`, and size-consistent chip buffers. -/
def Cartridge.wf (c : Cartridge) : Prop :=
  c.chipStartAddress.length = 64 ∧ c.chipSize.length = 64 ∧ c.chip.length = 64 ∧
  c.rom.length = 32768 ∧ c.blendedIn.length = 16 ∧ c.lastBlendedIn < 256 ∧
  (∀ a ∈ c.chipStartAddress, a < 65536) ∧ (∀ z ∈ c.chipSize, z < 65536) ∧
  chipsMatch c.chipSize c.chip

instance (c : Cartridge) : Decidable c.wf := by unfold Cartridge.wf; infer_instance

/-! ## VIA 6522 (src/C64/VIA6522.cpp)

The `delay`/`feed` edge pipeline and its bit constants, the ACR/PCR decode
helpers and the `clearInterruptFlag_*` / `HI_LO` / `LO_BYTE` helpers live in
the repository's `VIA6522.h` / `basic.h` headers, which are not under `src/`;
they are modelled from the spec (§3 "delay/feed: a two-stage edge-pipeline of
sticky condition bits", §4.2 "all request bits shift one position each cycle
and any continuously held bits (in a separate feed mask) are re-injected every
cycle"). Each condition gets a run of bit positions, one per pipeline stage
(the trailing digit of the constant), with a spare position after the last
stage so that an expired bit is dropped by the `VIAClearBits` mask. -/

/-- Modelled from the spec: pipeline bit, timer 1 count enable, stage 0. -/
def VIACountA0 : Nat := 1 <<< 0
/-- Modelled from the spec: pipeline bit, timer 1 count enable, stage 1. -/
def VIACountA1 : Nat := 1 <<< 1
/-- Modelled from the spec: pipeline bit, timer 2 count enable, stage 0. -/
def VIACountB0 : Nat := 1 <<< 3
/-- Modelled from the spec: pipeline bit, timer 2 count enable, stage 1. -/
def VIACountB1 : Nat := 1 <<< 4
/-- Modelled from the spec: pipeline bit, timer 1 reload request, stage 0. -/
def VIAReloadA0 : Nat := 1 <<< 6
/-- Modelled from the spec: pipeline bit, timer 1 reload request, stage 1. -/
def VIAReloadA1 : Nat := 1 <<< 7
/-- Modelled from the spec: pipeline bit, timer 1 reload request, stage 2. -/
def VIAReloadA2 : Nat := 1 <<< 8
/-- Modelled from the spec: sticky "timer 1 already fired" marker, stage 0. -/
def VIAPostOneShotA0 : Nat := 1 <<< 10
/-- Modelled from the spec: sticky "timer 2 already fired" marker, stage 0. -/
def VIAPostOneShotB0 : Nat := 1 <<< 12
/-- Modelled from the spec: pipeline bit, interrupt pending, stage 0. -/
def VIAInterrupt0 : Nat := 1 <<< 14
/-- Modelled from the spec: pipeline bit, interrupt pending, stage 1. -/
def VIAInterrupt1 : Nat := 1 <<< 15
/-- Modelled from the spec: pipeline bit, CA2 set request, stage 0. -/
def VIASetCA2out0 : Nat := 1 <<< 17
/-- Modelled from the spec: pipeline bit, CA2 set request, stage 1. -/
def VIASetCA2out1 : Nat := 1 <<< 18
/-- Modelled from the spec: pipeline bit, CA2 clear request, stage 0. -/
def VIAClearCA2out0 : Nat := 1 <<< 20
/-- Modelled from the spec: pipeline bit, CA2 clear request, stage 1. -/
def VIAClearCA2out1 : Nat := 1 <<< 21
/-- Modelled from the spec: pipeline bit, CB2 set request, stage 0. -/
def VIASetCB2out0 : Nat := 1 <<< 23
/-- Modelled from the spec: pipeline bit, CB2 set request, stage 1. -/
def VIASetCB2out1 : Nat := 1 <<< 24
/-- Modelled from the spec: pipeline bit, CB2 clear request, stage 0. -/
def VIAClearCB2out0 : Nat := 1 <<< 26
/-- Modelled from the spec: pipeline bit, CB2 clear request, stage 1. -/
def VIAClearCB2out1 : Nat := 1 <<< 27

/-- Modelled from the spec: the mask applied after the per-cycle left shift;
it keeps exactly the meaningful stage positions, so a bit shifted past its
condition's last stage decays. -/
def VIAClearBits : Nat :=
  VIACountA0 ||| VIACountA1 ||| VIACountB0 ||| VIACountB1 |||
  VIAReloadA0 ||| VIAReloadA1 ||| VIAReloadA2 |||
  VIAPostOneShotA0 ||| VIAPostOneShotB0 |||
  VIAInterrupt0 ||| VIAInterrupt1 |||
  VIASetCA2out0 ||| VIASetCA2out1 ||| VIAClearCA2out0 ||| VIAClearCA2out1 |||
  VIASetCB2out0 ||| VIASetCB2out1 ||| VIAClearCB2out0 ||| VIAClearCB2out1

/-- The VIA 6522 register file (the snapshot items registered in the
constructor). 8/16-bit registers are `Nat`, single lines are `Bool`. -/
structure VIA where
  pa : Nat
  ca1 : Bool
  ca2 : Bool
  ca2_out : Bool
  pb : Nat
  cb1 : Bool
  cb2 : Bool
  cb2_out : Bool
  ddra : Nat
  ddrb : Nat
  ora : Nat
  orb : Nat
  ira : Nat
  irb : Nat
  t1 : Nat
  t2 : Nat
  t1_latch_lo : Nat
  t1_latch_hi : Nat
  t2_latch_lo : Nat
  pb7toggle : Bool
  pb7timerOut : Bool
  pcr : Nat
  acr : Nat
  ier : Nat
  ifr : Nat
  sr : Nat
  delay : Nat
  feed : Nat
deriving DecidableEq, Repr

/-- `VIA6522::reset`: every snapshot item is zeroed (`CLEAR_ON_RESET`), then
the timer registers and latches get their power-on presets and the two count
enables are fed continuously. -/
def VIA6522.reset : VIA where
  pa := 0
  ca1 := false
  ca2 := false
  ca2_out := false
  pb := 0
  cb1 := false
  cb2 := false
  cb2_out := false
  ddra := 0
  ddrb := 0
  ora := 0
  orb := 0
  ira := 0
  irb := 0
  t1 := 0x01AA
  t2 := 0x01AA
  t1_latch_lo := 0xAA
  t1_latch_hi := 0x01
  t2_latch_lo := 0xAA
  pb7toggle := false
  pb7timerOut := false
  pcr := 0
  acr := 0
  ier := 0
  ifr := 0
  sr := 0
  delay := 0
  feed := VIACountA0 ||| VIACountB0

/-- Modelled from the spec: `freeRunMode1()` from `VIA6522.h` — the ACR timer
1 mode bit selecting free-run over one-shot (spec §4.4 glossary "one-shot vs
free-run"; ACR bit 6 on the 6522, bit 7 being the PB7 output enable the source
tests as `acr & 0x80`). -/
def freeRunMode1 (s : VIA) : Prop := s.acr &&& 0x40 ≠ 0

instance (s : VIA) : Decidable (freeRunMode1 s) :=
  inferInstanceAs (Decidable (s.acr &&& 0x40 ≠ 0))

/-- Modelled from the spec: `inputLatchingEnabledA()` from `VIA6522.h` — ACR
bit 0 enables port A input latching. -/
def inputLatchingEnabledA (s : VIA) : Prop := s.acr &&& 0x01 ≠ 0

instance (s : VIA) : Decidable (inputLatchingEnabledA s) :=
  inferInstanceAs (Decidable (s.acr &&& 0x01 ≠ 0))

/-- Modelled from the spec: `shouldClearCA2onRead()` from `VIA6522.h`. The PCR
CA2 mode (bits 1-3) selects clear-on-access (modes 0, 2), no-register-clearance
(1, 3), clear with handshake/pulse (4, 5), or manual no-clear (6, 7). -/
def shouldClearCA2onRead (s : VIA) : Prop :=
  (s.pcr >>> 1) &&& 7 = 0 ∨ (s.pcr >>> 1) &&& 7 = 2 ∨
  (s.pcr >>> 1) &&& 7 = 4 ∨ (s.pcr >>> 1) &&& 7 = 5

instance (s : VIA) : Decidable (shouldClearCA2onRead s) :=
  inferInstanceAs (Decidable (_ ∨ _ ∨ _ ∨ _))

/-- Modelled from the spec: `shouldClearCA2onWrite()` from `VIA6522.h` — same
decode as on read (spec §4.3: the CA2 clear rules apply to reads and writes
alike). -/
def shouldClearCA2onWrite (s : VIA) : Prop := shouldClearCA2onRead s

instance (s : VIA) : Decidable (shouldClearCA2onWrite s) :=
  inferInstanceAs (Decidable (shouldClearCA2onRead s))

/-- Modelled from the spec: `shouldClearCB2onWrite()` from `VIA6522.h` — the
CB2 decode (PCR bits 5-7), clear-on-access in modes 0, 2, 4 and 5 (the
handshake/pulse modes 4-5 react only to writes for CB2). -/
def shouldClearCB2onWrite (s : VIA) : Prop :=
  (s.pcr >>> 5) &&& 7 = 0 ∨ (s.pcr >>> 5) &&& 7 = 2 ∨
  (s.pcr >>> 5) &&& 7 = 4 ∨ (s.pcr >>> 5) &&& 7 = 5

instance (s : VIA) : Decidable (shouldClearCB2onWrite s) :=
  inferInstanceAs (Decidable (_ ∨ _ ∨ _ ∨ _))

/-- Outward calls into the floppy mechanics / logging made by `VIA2`
(collaborators excluded from the state). -/
inductive DriveEv where
  | setZone (z : Nat)
  | setRedLED (b : Bool)
  | setRotating (b : Bool)
  | moveHeadUp
  | moveHeadDown
  | warnStepper
deriving DecidableEq, Repr

/-- `VIA6522::executeTimer1`: pipelined reload, pipelined decrement (`uint16_t`
wrap-around), and the zero check with the free-run / one-shot branches guarded
by the `VIAPostOneShotA0` marker in `feed`. -/
def VIA6522.executeTimer1 (s : VIA) : VIA :=
  let t1a := if s.delay &&& VIAReloadA2 ≠ 0 then
      256 * s.t1_latch_hi + s.t1_latch_lo else s.t1
  let t1b := if s.delay &&& VIACountA1 ≠ 0 then (t1a + 65535) % 65536 else t1a
  let s := { s with t1 := t1b }
  if s.t1 = 0 then
    let s :=
      if freeRunMode1 s then
        if s.feed &&& VIAPostOneShotA0 = 0 then
          { s with ifr := s.ifr ||| 0x40, pb7toggle := !s.pb7toggle,
                   delay := s.delay ||| VIAReloadA0 }
        else s
      else
        if s.feed &&& VIAPostOneShotA0 = 0 then
          { s with ifr := s.ifr ||| 0x40, pb7toggle := !s.pb7toggle }
        else s
    let s := { s with feed := s.feed ||| VIAPostOneShotA0 }
    if s.acr &&& 0x80 ≠ 0 then { s with pb7timerOut := s.pb7toggle } else s
  else s

/-- `VIA6522::executeTimer2`: pipelined decrement and the zero check guarded by
`VIAPostOneShotB0` (tested in `delay`, set in `feed`). -/
def VIA6522.executeTimer2 (s : VIA) : VIA :=
  let t2b := if s.delay &&& VIACountB1 ≠ 0 then (s.t2 + 65535) % 65536 else s.t2
  let s := { s with t2 := t2b }
  if s.t2 = 0 then
    if s.delay &&& VIAPostOneShotB0 = 0 then
      { s with ifr := s.ifr ||| 0x20, feed := s.feed ||| VIAPostOneShotB0 }
    else s
  else s

/-- `VIA6522::execute`: one emulated clock cycle — both timers, the interrupt
condition into the pipeline (the `pullDownIrqLine` call is outward CPU state),
the delayed CA2/CB2 output updates, and the pipeline shift-and-feed. -/
def VIA6522.execute (s : VIA) : VIA :=
  let s := VIA6522.executeTimer1 s
  let s := VIA6522.executeTimer2 s
  let s := if s.ifr &&& s.ier ≠ 0 then { s with delay := s.delay ||| VIAInterrupt0 }
      else s
  let s := if s.delay &&& VIASetCA2out1 ≠ 0 then { s with ca2_out := true } else s
  let s := if s.delay &&& VIAClearCA2out1 ≠ 0 then { s with ca2_out := false } else s
  let s := if s.delay &&& VIASetCB2out1 ≠ 0 then { s with cb2_out := true } else s
  let s := if s.delay &&& VIAClearCB2out1 ≠ 0 then { s with cb2_out := false } else s
  { s with delay := ((s.delay <<< 1) &&& VIAClearBits) ||| s.feed }

/-- `n` applications of `VIA6522::execute`. -/
def VIA6522.executeN : Nat → VIA → VIA
  | 0, s => s
  | n + 1, s => VIA6522.executeN n (VIA6522.execute s)

/-! ### Register access. `updatePA`/`updatePB` are virtual in the source; the
base-class operations take the concrete variant's implementations as
parameters. `updatePB` may call outward into the floppy mechanics, hence the
event list. -/

/-- `VIA6522::poke`: the 16-register write decode. `value` is a `uint8_t`;
`~value` is modelled as `value ^^^ 255`. The `IRQ()` / `releaseIrqLine` calls
in cases 0x8, 0xD and 0xE only touch the outward CPU interrupt line. -/
def VIA6522.poke (updatePA : VIA → VIA) (updatePB : VIA → VIA × List DriveEv)
    (addr value : Nat) (s : VIA) : VIA × List DriveEv :=
  if addr = 0x0 then
    -- ORB: clear CB1 flag (IFR bit 4), and CB2 flag (bit 3) per PCR decode
    let s := { s with ifr := s.ifr &&& 0xEF }
    (if shouldClearCB2onWrite s then { s with ifr := s.ifr &&& 0xF7 } else s, [])
  else if addr = 0x1 then
    -- ORA: clear CA1 flag (IFR bit 1), and CA2 flag (bit 0) per PCR decode
    let s := { s with ifr := s.ifr &&& 0xFD }
    (if shouldClearCA2onWrite s then { s with ifr := s.ifr &&& 0xFE } else s, [])
  else if addr = 0x2 then updatePB { s with ddrb := value }
  else if addr = 0x3 then (updatePA { s with ddra := value }, [])
  else if addr = 0x4 then ({ s with t1_latch_lo := value }, [])
  else if addr = 0x5 then
    ({ s with t1_latch_hi := value,
              t1 := 256 * value + s.t1_latch_lo,
              ifr := s.ifr &&& 0xBF,
              feed := s.feed &&& (VIAPostOneShotA0 ^^^ (2 ^ 32 - 1)),
              delay := s.delay &&& (VIACountA1 ^^^ (2 ^ 32 - 1)) }, [])
  else if addr = 0x6 then ({ s with t1_latch_lo := value }, [])
  else if addr = 0x7 then ({ s with t1_latch_hi := value }, [])
  else if addr = 0x8 then
    ({ s with t2_latch_lo := value, ifr := s.ifr &&& 0xDF }, [])
  else if addr = 0x9 then
    ({ s with t2 := 256 * value + s.t2_latch_lo,
              ifr := s.ifr &&& 0xDF,
              feed := s.feed &&& (VIAPostOneShotB0 ^^^ (2 ^ 32 - 1)) }, [])
  else if addr = 0xA then ({ s with ifr := s.ifr &&& 0xFB, sr := value }, [])
  else if addr = 0xB then
    let s := { s with acr := value }
    let s :=
      if s.acr &&& 0x20 ≠ 0 then
        { s with delay := s.delay &&& (VIACountB0 ^^^ (2 ^ 32 - 1)),
                 feed := s.feed &&& (VIACountB0 ^^^ (2 ^ 32 - 1)) }
      else
        { s with delay := s.delay ||| VIACountB0, feed := s.feed ||| VIACountB0 }
    (if s.acr &&& 0x80 ≠ 0 then { s with pb7timerOut := s.pb7toggle } else s, [])
  else if addr = 0xC then ({ s with pcr := value }, [])
  else if addr = 0xD then ({ s with ifr := s.ifr &&& (value ^^^ 255) }, [])
  else if addr = 0xE then
    let s :=
      if value &&& 0x80 ≠ 0 then { s with ier := s.ier ||| value }
      else { s with ier := s.ier &&& (value ^^^ 255) }
    ({ s with ier := s.ier &&& 0x7F }, [])
  else
    -- 0xF: like ORA, clear CA1 flag and CA2 flag per PCR decode
    let s := { s with ifr := s.ifr &&& 0xFD }
    (if shouldClearCA2onWrite s then { s with ifr := s.ifr &&& 0xFE } else s, [])

/-- `VIA6522::peekORA`: clears the CA1 flag, applies the PCR CA2 side-effect
decode (flag clearing and, in the handshake/pulse modes, CA2 output requests
into the pipeline), refreshes `pa` through the variant's `updatePA` and
returns it. -/
def VIA6522.peekORA (updatePA : VIA → VIA) (s : VIA) : Nat × VIA :=
  let s := { s with ifr := s.ifr &&& 0xFD }
  let s :=
    match (s.pcr >>> 1) &&& 0x07 with
    | 0 => { s with ifr := s.ifr &&& 0xFE }
    | 1 => s
    | 2 => { s with ifr := s.ifr &&& 0xFE }
    | 3 => s
    | 4 => { s with ifr := s.ifr &&& 0xFE, delay := s.delay ||| VIAClearCA2out1 }
    | 5 => { s with ifr := s.ifr &&& 0xFE,
                    delay := s.delay ||| (VIAClearCA2out1 ||| VIASetCA2out0) }
    | _ => s
  let s := updatePA s
  (s.pa, s)

/-- `VIA6522::peekORB`: clears the CB1 flag, applies the PCR CB2 decode (the
CB2 handshake/pulse modes 4-5 react only to writes, so only modes 0 and 2
clear the flag), refreshes `pb` through the variant's `updatePB` and returns
it. -/
def VIA6522.peekORB (updatePB : VIA → VIA × List DriveEv) (s : VIA) :
    Nat × VIA × List DriveEv :=
  let s := { s with ifr := s.ifr &&& 0xEF }
  let s :=
    match (s.pcr >>> 5) &&& 0x07 with
    | 0 => { s with ifr := s.ifr &&& 0xF7 }
    | 2 => { s with ifr := s.ifr &&& 0xF7 }
    | _ => s
  let q := updatePB s
  (q.1.pb, q.1, q.2)

/-- `VIA6522::peek`: the CPU-visible read decode with its hardware side
effects (T1/T2/SR flag clearing on counter/shift-register reads, CA-flag
clearing on 0xF, the synthesized IFR/IER bit 7). -/
def VIA6522.peek (updatePA : VIA → VIA) (updatePB : VIA → VIA × List DriveEv)
    (addr : Nat) (s : VIA) : Nat × VIA × List DriveEv :=
  if addr = 0x0 then VIA6522.peekORB updatePB s
  else if addr = 0x1 then
    let q := VIA6522.peekORA updatePA s
    (q.1, q.2, [])
  else if addr = 0x2 then (s.ddrb, s, [])
  else if addr = 0x3 then (s.ddra, s, [])
  else if addr = 0x4 then (s.t1 % 256, { s with ifr := s.ifr &&& 0xBF }, [])
  else if addr = 0x5 then (s.t1 / 256 % 256, s, [])
  else if addr = 0x6 then (s.t1_latch_lo, s, [])
  else if addr = 0x7 then (s.t1_latch_hi, s, [])
  else if addr = 0x8 then (s.t2 % 256, { s with ifr := s.ifr &&& 0xDF }, [])
  else if addr = 0x9 then (s.t2 / 256 % 256, s, [])
  else if addr = 0xA then (s.sr, { s with ifr := s.ifr &&& 0xFB }, [])
  else if addr = 0xB then (s.acr, s, [])
  else if addr = 0xC then (s.pcr, s, [])
  else if addr = 0xD then
    (s.ifr ||| (if s.ifr &&& s.ier ≠ 0 then 0x80 else 0x00), s, [])
  else if addr = 0xE then (s.ier ||| 0x80, s, [])
  else
    let s := { s with ifr := s.ifr &&& 0xFD }
    (0, if shouldClearCA2onRead s then { s with ifr := s.ifr &&& 0xFE } else s, [])

/-- `VIA6522::read`: the debugger variant — pure for 0x4, 0x8, 0xA-0xD, and
deferring to `peek` for everything else. -/
def VIA6522.read (updatePA : VIA → VIA) (updatePB : VIA → VIA × List DriveEv)
    (addr : Nat) (s : VIA) : Nat × VIA × List DriveEv :=
  if addr = 0x4 then (s.t1 % 256, s, [])
  else if addr = 0x8 then (s.t2 % 256, s, [])
  else if addr = 0xA ∨ addr = 0xB ∨ addr = 0xC then (0, s, [])
  else if addr = 0xD then
    ((s.ifr &&& 0x7F) ||| (if s.ifr &&& s.ier ≠ 0 then 0x80 else 0x00), s, [])
  else VIA6522.peek updatePA updatePB addr s

/-! ### VIA2 (drive mechanics) -/

/-- `VIA2::portAinternal`. -/
def VIA2.portAinternal (s : VIA) : Nat := s.ora

/-- `VIA2::portAexternal`. -/
def VIA2.portAexternal (_ : VIA) : Nat := 0xFF

/-- `VIA2::updatePA`. -/
def VIA2.updatePA (s : VIA) : VIA :=
  { s with pa := (VIA2.portAinternal s &&& s.ddra) |||
                 (VIA2.portAexternal s &&& (s.ddra ^^^ 255)) }

/-- `VIA2::portBinternal`. -/
def VIA2.portBinternal (s : VIA) : Nat := s.orb

/-- `VIA2::portBexternal`: SYNC on bit 7 (active low), light barrier on bit 4
(active low), all other bits high. `sync`/`barrier` are the floppy sensor
inputs. -/
def VIA2.portBexternal (sync barrier : Bool) : Nat :=
  (if sync then 0x00 else 0x80) ||| (if barrier then 0x00 else 0x10) ||| 0x6F

/-- `VIA2::updatePB`: recomputes `pb` from ORB/DDRB and the sensor lines, then
compares against the previous `pb` and drives zone select (bits 5-6), LED
(bit 3), motor rotation (bit 2), and the stepper decode on bits 0-1 (`+1` mod 4
moves the head up, `-1` mod 4 moves it down, anything else logs a warning). -/
def VIA2.updatePB (sync barrier : Bool) (s : VIA) : VIA × List DriveEv :=
  let oldPb := s.pb
  let pb := (VIA2.portBinternal s &&& s.ddrb) |||
            (VIA2.portBexternal sync barrier &&& (s.ddrb ^^^ 255))
  let s := { s with pb := pb }
  let evZone := if pb &&& 0x60 ≠ oldPb &&& 0x60 then
      [DriveEv.setZone ((pb >>> 5) &&& 0x03)] else []
  let evLED := if pb.testBit 3 ≠ oldPb.testBit 3 then
      [DriveEv.setRedLED (pb.testBit 3)] else []
  let evRot := if pb.testBit 2 ≠ oldPb.testBit 2 then
      [DriveEv.setRotating (pb.testBit 2)] else []
  let evStep :=
    if pb &&& 0x03 ≠ oldPb &&& 0x03 then
      if pb &&& 0x03 = (oldPb + 1) &&& 0x03 then [DriveEv.moveHeadUp]
      else if pb &&& 0x03 = (oldPb + 3) &&& 0x03 then [DriveEv.moveHeadDown]
      else [DriveEv.warnStepper]
    else []
  (s, evZone ++ evLED ++ evRot ++ evStep)

/-- `VIA2::poke`: ORB writes go through the base poke, store ORB and refresh
port B (driving the mechanics); ORA/0xF store ORA and refresh port A; 0x3 and
0xC only store the register (plus logging); the rest defers to the base. -/
def VIA2.poke (sync barrier : Bool) (addr value : Nat) (s : VIA) :
    VIA × List DriveEv :=
  if addr = 0x0 then
    let p := VIA6522.poke VIA2.updatePA (VIA2.updatePB sync barrier) addr value s
    let q := VIA2.updatePB sync barrier { p.1 with orb := value }
    (q.1, p.2 ++ q.2)
  else if addr = 0x1 ∨ addr = 0xF then
    let p := VIA6522.poke VIA2.updatePA (VIA2.updatePB sync barrier) addr value s
    (VIA2.updatePA { p.1 with ora := value }, p.2)
  else if addr = 0x3 then ({ s with ddra := value }, [])
  else if addr = 0xC then ({ s with pcr := value }, [])
  else VIA6522.poke VIA2.updatePA (VIA2.updatePB sync barrier) addr value s

/-- `VIA2::read`: pure recomputation for port B (0x0) and the latched port A
(0x1/0xF, returning 0 with a warning when input latching is off) — but the
`default` branch calls `VIA6522::peek`, not `VIA6522::read`. -/
def VIA2.read (sync barrier : Bool) (addr : Nat) (s : VIA) :
    Nat × VIA × List DriveEv :=
  if addr = 0x0 then
    ((VIA2.portBinternal s &&& s.ddrb) |||
       (VIA2.portBexternal sync barrier &&& (s.ddrb ^^^ 255)), s, [])
  else if addr = 0x1 ∨ addr = 0xF then
    if inputLatchingEnabledA s then
      ((s.ddra &&& s.ora) ||| ((s.ddra ^^^ 255) &&& s.ira), s, [])
    else (0, s, [])
  else VIA6522.peek VIA2.updatePA (VIA2.updatePB sync barrier) addr s

/-! ### Concrete states used by the scenario claims -/

/-- The state component of a base-class poke. -/
def pokeState (updatePA : VIA → VIA) (updatePB : VIA → VIA × List DriveEv)
    (addr value : Nat) (s : VIA) : VIA :=
  (VIA6522.poke updatePA updatePB addr value s).1

/-- The one-shot scenario setup: reset, ACR := 0x00, T1 low latch := 0x05,
T1 high latch := 0x00 (transfers the latch into the counter). The poked
registers (0xB, 0x4, 0x5) never invoke the variant's `updatePA`/`updatePB`,
so the drive-mechanics instance is representative. -/
def c4setup : VIA :=
  pokeState VIA2.updatePA (VIA2.updatePB true true) 0x5 0x00
    (pokeState VIA2.updatePA (VIA2.updatePB true true) 0x4 0x05
      (pokeState VIA2.updatePA (VIA2.updatePB true true) 0xB 0x00 VIA6522.reset))

/-- The free-run scenario setup: reset, ACR := 0x40 (T1 free-run), T1 low
latch := 0x03, T1 high latch := 0x00. -/
def c1setup : VIA :=
  pokeState VIA2.updatePA (VIA2.updatePB true true) 0x5 0x00
    (pokeState VIA2.updatePA (VIA2.updatePB true true) 0x4 0x03
      (pokeState VIA2.updatePA (VIA2.updatePB true true) 0xB 0x40 VIA6522.reset))

/-- The free-run scenario after the first T1 expiry (5 cycles), with the T1
interrupt flag explicitly acknowledged by a write to the IFR. -/
def c1cleared : VIA :=
  pokeState VIA2.updatePA (VIA2.updatePB true true) 0xD 0x40
    (VIA6522.executeN 5 c1setup)

/-- A VIA state with the T1 interrupt flag (IFR bit 6) pending. -/
def c2state : VIA := { VIA6522.reset with ifr := 0x40 }

/-- A cartridge with a single 16-byte chip at 0x8000: its range
`[0x8000, 0x8010)` covers part of 4KB block 8 and no complete block. -/
def c3cart : Cartridge :=
  Cartridge.init.loadChip 0 0x8000 0x10 (List.replicate 0x10 7)

/-!
# Theorems
-/

/-! ## List helper lemmas -/

lemma setRangeAux_length (lo hi v : Nat) :
    ∀ (l : List Nat) (i : Nat), (setRangeAux i lo hi v l).length = l.length := by
  intro l
  induction l with
  | nil => intro i; rfl
  | cons x xs ih => intro i; simp [setRangeAux, ih]

lemma setRange_length (l : List Nat) (lo hi v : Nat) :
    (setRange l lo hi v).length = l.length :=
  setRangeAux_length lo hi v l 0

lemma setRangeAux_getD (lo hi v : Nat) :
    ∀ (l : List Nat) (i j : Nat),
      (setRangeAux i lo hi v l).getD j 0 =
        if lo ≤ i + j ∧ i + j < hi ∧ j < l.length then v else l.getD j 0 := by
  intro l
  induction l with
  | nil => intro i j; simp [setRangeAux]
  | cons x xs ih =>
    intro i j
    cases j with
    | zero =>
      simp only [setRangeAux, List.getD_cons_zero, Nat.add_zero, List.length_cons]
      by_cases h : lo ≤ i ∧ i < hi
      · rw [if_pos h, if_pos ⟨h.1, h.2, by omega⟩]
      · rw [if_neg h, if_neg (by omega)]
    | succ j =>
      simp only [setRangeAux, List.getD_cons_succ, List.length_cons]
      rw [ih (i + 1) j]
      by_cases h : lo ≤ i + 1 + j ∧ i + 1 + j < hi ∧ j < xs.length
      · rw [if_pos h, if_pos (by omega)]
      · rw [if_neg h, if_neg (by omega)]

lemma setRange_getD (l : List Nat) (lo hi v j : Nat) :
    (setRange l lo hi v).getD j 0 =
      if lo ≤ j ∧ j < hi ∧ j < l.length then v else l.getD j 0 := by
  have := setRangeAux_getD lo hi v l 0 j
  simpa [setRange] using this

/-! ## Cartridge claims -/

/-- C7: `loadChip` with `start < 0x8000` or `start + size > 0xFFFF` leaves the
whole cartridge unchanged; in particular slot `nr` stays unpopulated if it was,
and every other slot, `rom`, `blendedIn`, `lastBlendedIn`, `gameLine` and
`exromLine` are untouched. (`start` is a `uint16_t`, hence the bound.) -/
theorem loadChip_invalid_is_noop (c : Cartridge) (nr start size : Nat)
    (data : List Nat) (hstart : start < 65536)
    (hbad : start < 0x8000 ∨ 0xFFFF < start + size) :
    c.loadChip nr start size data = c ∧
      (c.chip.getD nr none = none →
        (c.loadChip nr start size data).chip.getD nr none = none) := by
  have hmain : c.loadChip nr start size data = c := by
    unfold Cartridge.loadChip
    rcases hbad with hlo | hhi
    · rw [if_pos hlo]
    · by_cases hlo : start < 0x8000
      · rw [if_pos hlo]
      · rw [if_neg hlo, if_pos (by omega)]
  exact ⟨hmain, fun h => by rw [hmain]; exact h⟩

theorem loadChip_invalid_is_noop_witness :
    (0x1000 < 65536 ∧ (0x1000 < 0x8000 ∨ 0xFFFF < 0x1000 + 4)) ∧
      (Cartridge.init.loadChip 0 0x1000 4 [1, 2, 3, 4] = Cartridge.init ∧
        (Cartridge.init.chip.getD 0 none = none →
          (Cartridge.init.loadChip 0 0x1000 4 [1, 2, 3, 4]).chip.getD 0 none = none)) :=
  ⟨⟨by decide, Or.inl (by decide)⟩,
    loadChip_invalid_is_noop Cartridge.init 0 0x1000 4 [1, 2, 3, 4] (by decide)
      (Or.inl (by decide))⟩

/-- C3 (counterexample): `c3cart`'s chip 0 occupies `[0x8000, 0x8800)`, which
partially covers 4KB block 8, yet `bankIn 0` marks no block at all — the claim
that a block only partially covered by the upper end of the range is also
marked is false. -/
theorem bankIn_partial_upper_block_unmarked :
    c3cart.chip.getD 0 none = some (List.replicate 0x10 7) ∧
      c3cart.chipStartAddress.getD 0 0 = 0x8000 ∧
      c3cart.chipSize.getD 0 0 = 0x10 ∧
      (0 : Nat) ≠ c3cart.lastBlendedIn ∧
      (c3cart.bankIn 0).blendedIn.getD 8 0 = 0 := by
  refine ⟨by decide, by decide, by decide, by decide, ?_⟩
  decide

/-- C3 (amended): for a populated chip `nr ≠ lastBlendedIn` with a valid
placement, `bankIn nr` copies the chip's `size` bytes into `rom` at offset
`start - 0x8000`, updates `lastBlendedIn`, and marks as blended-in exactly the
4KB blocks `start >> 12 ≤ j < (start + size) >> 12` (exclusive upper bound —
a block only partially covered by the upper end of the range is NOT marked). -/
theorem bankIn_marks_shifted_range (c : Cartridge) (nr : Nat) (data : List Nat)
    (hch : c.chip.getD nr none = some data)
    (hlen : data.length = c.chipSize.getD nr 0)
    (hne : nr ≠ c.lastBlendedIn)
    (hfit : c.chipStartAddress.getD nr 0 + c.chipSize.getD nr 0 ≤ 0xFFFF)
    (hbl : c.blendedIn.length = 16) :
    (c.bankIn nr).rom =
        c.rom.take (c.chipStartAddress.getD nr 0 - 0x8000) ++ data ++
          c.rom.drop (c.chipStartAddress.getD nr 0 - 0x8000 + c.chipSize.getD nr 0) ∧
      (∀ j, (c.bankIn nr).blendedIn.getD j 0 =
        if c.chipStartAddress.getD nr 0 >>> 12 ≤ j ∧
            j < (c.chipStartAddress.getD nr 0 + c.chipSize.getD nr 0) >>> 12 then 1
        else c.blendedIn.getD j 0) ∧
      (c.bankIn nr).lastBlendedIn = nr := by
  unfold Cartridge.bankIn
  rw [if_neg hne]
  set start := c.chipStartAddress.getD nr 0 with hstart
  set size := c.chipSize.getD nr 0 with hsize
  have hmod : (start + size) % 65536 = start + size := Nat.mod_eq_of_lt (by omega)
  refine ⟨?_, ?_, rfl⟩
  · simp only [writeBytes, hch, Option.getD_some, hlen]
  · intro j
    simp only [hmod, setRange_getD, hbl]
    have hhi : (start + size) >>> 12 ≤ 15 := by
      rw [Nat.shiftRight_eq_div_pow]
      omega
    by_cases h : start >>> 12 ≤ j ∧ j < (start + size) >>> 12
    · rw [if_pos ⟨h.1, h.2, by omega⟩, if_pos h]
    · rw [if_neg (by tauto), if_neg h]

theorem bankIn_marks_shifted_range_witness :
    (c3cart.chip.getD 0 none = some (List.replicate 0x10 7) ∧
        (List.replicate 0x10 7).length = c3cart.chipSize.getD 0 0 ∧
        (0 : Nat) ≠ c3cart.lastBlendedIn ∧
        c3cart.chipStartAddress.getD 0 0 + c3cart.chipSize.getD 0 0 ≤ 0xFFFF ∧
        c3cart.blendedIn.length = 16) ∧
      (∀ j, (c3cart.bankIn 0).blendedIn.getD j 0 =
        if c3cart.chipStartAddress.getD 0 0 >>> 12 ≤ j ∧
            j < (c3cart.chipStartAddress.getD 0 0 + c3cart.chipSize.getD 0 0) >>> 12
        then 1 else c3cart.blendedIn.getD j 0) :=
  ⟨⟨by decide, by decide, by decide, by decide, by decide⟩,
    (bankIn_marks_shifted_range c3cart 0 (List.replicate 0x10 7) (by decide)
      (by decide) (by decide) (by decide) (by decide)).2.1⟩

/-- C8: for a populated chip with a valid placement, `bankIn nr` followed by
`bankOut nr` clears exactly the `blendedIn` flags in the chip's block range
(`start >> 12 ≤ j < (start + size) >> 12`) and leaves every other flag as it
was before the pair; and `bankOut` itself leaves `rom` and `lastBlendedIn`
unchanged. -/
theorem bankIn_bankOut_clears_exactly_range (c : Cartridge) (nr : Nat)
    (data : List Nat) (hch : c.chip.getD nr none = some data)
    (hfit : c.chipStartAddress.getD nr 0 + c.chipSize.getD nr 0 ≤ 0xFFFF)
    (hbl : c.blendedIn.length = 16) :
    ((∀ j, ((c.bankIn nr).bankOut nr).blendedIn.getD j 0 =
        if c.chipStartAddress.getD nr 0 >>> 12 ≤ j ∧
            j < (c.chipStartAddress.getD nr 0 + c.chipSize.getD nr 0) >>> 12 then 0
        else c.blendedIn.getD j 0) ∧
      ((c.bankIn nr).bankOut nr).rom = (c.bankIn nr).rom ∧
      ((c.bankIn nr).bankOut nr).lastBlendedIn = (c.bankIn nr).lastBlendedIn) := by
  set start := c.chipStartAddress.getD nr 0 with hstart
  set size := c.chipSize.getD nr 0 with hsize
  have hmod : (start + size) % 65536 = start + size := Nat.mod_eq_of_lt (by omega)
  have hhi : (start + size) >>> 12 ≤ 15 := by
    rw [Nat.shiftRight_eq_div_pow]; omega
  refine ⟨?_, ?_, ?_⟩
  · intro j
    unfold Cartridge.bankIn Cartridge.bankOut
    by_cases hfast : nr = c.lastBlendedIn
    · rw [if_pos hfast]
      simp only [← hstart, ← hsize, hmod, setRange_getD, hbl]
      by_cases h : start >>> 12 ≤ j ∧ j < (start + size) >>> 12
      · rw [if_pos ⟨h.1, h.2, by omega⟩, if_pos h]
      · rw [if_neg (by tauto), if_neg h]
    · rw [if_neg hfast]
      simp only [← hstart, ← hsize, hmod, setRange_getD, setRange_length, hbl]
      by_cases h : start >>> 12 ≤ j ∧ j < (start + size) >>> 12
      · rw [if_pos ⟨h.1, h.2, by omega⟩, if_pos h]
      · rw [if_neg (by tauto), if_neg (by tauto), if_neg h]
  · unfold Cartridge.bankOut
    rfl
  · unfold Cartridge.bankOut
    rfl

theorem bankIn_bankOut_clears_exactly_range_witness :
    (c3cart.chip.getD 0 none = some (List.replicate 0x10 7) ∧
        c3cart.chipStartAddress.getD 0 0 + c3cart.chipSize.getD 0 0 ≤ 0xFFFF ∧
        c3cart.blendedIn.length = 16) ∧
      (∀ j, ((c3cart.bankIn 0).bankOut 0).blendedIn.getD j 0 =
        if c3cart.chipStartAddress.getD 0 0 >>> 12 ≤ j ∧
            j < (c3cart.chipStartAddress.getD 0 0 + c3cart.chipSize.getD 0 0) >>> 12
        then 0 else c3cart.blendedIn.getD j 0) :=
  ⟨⟨by decide, by decide, by decide⟩,
    (bankIn_bankOut_clears_exactly_range c3cart 0 (List.replicate 0x10 7)
      (by decide) (by decide) (by decide)).1⟩

/-- C10: with a populated chip `nr` and `lastBlendedIn = nr` (the state right
after `bankIn nr`), the sequence `bankOut nr; bankIn nr` does not re-blend the
chip: `bankOut` leaves `lastBlendedIn` alone, so `bankIn`'s fast path returns
immediately and every `blendedIn` flag in the chip's block range stays
cleared. -/
theorem bankOut_bankIn_fast_path_skips_reblend (c : Cartridge) (nr : Nat)
    (data : List Nat) (hch : c.chip.getD nr none = some data)
    (hlast : c.lastBlendedIn = nr)
    (hfit : c.chipStartAddress.getD nr 0 + c.chipSize.getD nr 0 ≤ 0xFFFF)
    (hbl : c.blendedIn.length = 16) :
    ((c.bankOut nr).bankIn nr = c.bankOut nr ∧
      (∀ j, c.chipStartAddress.getD nr 0 >>> 12 ≤ j →
        j < (c.chipStartAddress.getD nr 0 + c.chipSize.getD nr 0) >>> 12 →
        ((c.bankOut nr).bankIn nr).blendedIn.getD j 0 = 0)) := by
  set start := c.chipStartAddress.getD nr 0 with hstart
  set size := c.chipSize.getD nr 0 with hsize
  have hmod : (start + size) % 65536 = start + size := Nat.mod_eq_of_lt (by omega)
  have hhi : (start + size) >>> 12 ≤ 15 := by
    rw [Nat.shiftRight_eq_div_pow]; omega
  have hfp : (c.bankOut nr).bankIn nr = c.bankOut nr := by
    unfold Cartridge.bankIn
    rw [if_pos (by unfold Cartridge.bankOut; simpa using hlast.symm)]
  refine ⟨hfp, fun j h1 h2 => ?_⟩
  rw [hfp]
  unfold Cartridge.bankOut
  simp only [← hstart, ← hsize, hmod, setRange_getD, hbl]
  rw [if_pos ⟨h1, h2, by omega⟩]

theorem bankOut_bankIn_fast_path_skips_reblend_witness :
    ((c3cart.bankIn 0).chip.getD 0 none = some (List.replicate 0x10 7) ∧
        (c3cart.bankIn 0).lastBlendedIn = 0 ∧
        (c3cart.bankIn 0).chipStartAddress.getD 0 0 +
            (c3cart.bankIn 0).chipSize.getD 0 0 ≤ 0xFFFF ∧
        (c3cart.bankIn 0).blendedIn.length = 16) ∧
      ((c3cart.bankIn 0).bankOut 0).bankIn 0 = (c3cart.bankIn 0).bankOut 0 :=
  ⟨⟨by decide, by decide, by decide, by decide⟩,
    (bankOut_bankIn_fast_path_skips_reblend (c3cart.bankIn 0) 0
      (List.replicate 0x10 7) (by decide) (by decide) (by decide) (by decide)).1⟩

/-! ## Serialization round-trip (C6) -/

lemma read8_cons (b : Nat) (r : List Nat) : read8 (b :: r) = (b, r) := rfl

lemma read16_write16 (a : Nat) (h : a < 65536) (r : List Nat) :
    read16 (write16 a ++ r) = (a, r) := by
  have h2 : a / 256 < 256 := by omega
  have h3 := Nat.mod_add_div a 256
  simp only [write16, read16, List.cons_append, List.nil_append, read8_cons,
    Nat.mod_eq_of_lt h2]
  rw [h3]

lemma readBlock_append (d t : List Nat) : readBlock d.length (d ++ t) = (d, t) := by
  simp [readBlock, List.take_left, List.drop_left]

lemma loadChips_saveChips :
    ∀ (as zs : List Nat) (ds : List (Option (List Nat))) (t : List Nat),
      as.length = zs.length → chipsMatch zs ds →
      (∀ a ∈ as, a < 65536) → (∀ z ∈ zs, z < 65536) →
      loadChips as.length (saveChips as zs ds ++ t) = ((as, zs, ds), t) := by
  intro as
  induction as with
  | nil =>
    intro zs ds t hlen hmatch _ _
    have hzs : zs = [] := by cases zs <;> simp_all
    subst hzs
    have hds : ds = [] := by cases ds <;> simp_all [chipsMatch]
    subst hds
    rfl
  | cons a as ih =>
    intro zs ds t hlen hmatch hba hbz
    match zs, ds with
    | [], _ => simp at hlen
    | z :: zs, [] => exact absurd hmatch (by simp [chipsMatch])
    | z :: zs, d :: ds =>
      have hmatch2 : chipsMatch zs ds := by
        have h := hmatch
        cases d <;> simp [chipsMatch] at h <;> tauto
      have ha : a < 65536 := hba a (by simp)
      have hz : z < 65536 := hbz z (by simp)
      have hih := ih zs ds t (by simpa using hlen) hmatch2
        (fun x hx => hba x (by simp [hx])) (fun x hx => hbz x (by simp [hx]))
      show loadChips (as.length + 1) _ = _
      rw [saveChips]
      simp only [List.append_assoc]
      unfold loadChips
      rw [read16_write16 a ha]
      simp only
      rw [read16_write16 z hz]
      cases d with
      | none =>
        have hz0 : z = 0 := by
          have h := hmatch; simp [chipsMatch] at h; tauto
        subst hz0
        simp only [if_neg (by omega : ¬ (0:Nat) < 0), Option.getD_none,
          List.nil_append, hih]
      | some l =>
        obtain ⟨hz0, hlenl, -⟩ : 0 < z ∧ l.length = z ∧ chipsMatch zs ds := by
          simpa [chipsMatch] using hmatch
        simp only [if_pos hz0, Option.getD_some]
        rw [← hlenl, ← List.append_assoc l, List.append_assoc l,
          readBlock_append l _]
        simp only [hih]

lemma foldl_size_acc :
    ∀ (zs : List Nat) (a : Nat),
      zs.foldl (fun acc z => acc + (4 + z)) a =
        a + (zs.map (fun z => 4 + z)).sum := by
  intro zs
  induction zs with
  | nil => intro a; simp
  | cons z zs ih => intro a; simp [ih]; omega

lemma saveChips_length :
    ∀ (as zs : List Nat) (ds : List (Option (List Nat))),
      as.length = zs.length → chipsMatch zs ds →
      (saveChips as zs ds).length = (zs.map (fun z => 4 + z)).sum := by
  intro as
  induction as with
  | nil =>
    intro zs ds hlen hmatch
    have hzs : zs = [] := by cases zs <;> simp_all
    subst hzs
    rfl
  | cons a as ih =>
    intro zs ds hlen hmatch
    match zs, ds with
    | [], _ => simp at hlen
    | z :: zs, [] => exact absurd hmatch (by simp [chipsMatch])
    | z :: zs, d :: ds =>
      have hmatch2 : chipsMatch zs ds := by
        have h := hmatch
        cases d <;> simp [chipsMatch] at h <;> tauto
      have hih := ih zs ds (by simpa using hlen) hmatch2
      rw [saveChips]
      cases d with
      | none =>
        have hz0 : z = 0 := by
          have h := hmatch; simp [chipsMatch] at h; tauto
        subst hz0
        simp [write16, hih]
        omega
      | some l =>
        obtain ⟨hz0, hlenl, -⟩ : 0 < z ∧ l.length = z ∧ chipsMatch zs ds := by
          simpa [chipsMatch] using hmatch
        simp [write16, if_pos hz0, hih, hlenl]
        omega

/-- C6: for a well-formed cartridge (64 slots, a chip buffer exactly where the
size is positive and of exactly that length, 16-bit placement values, 32KB
`rom`, 16-byte `blendedIn`, 8-bit `lastBlendedIn`), `loadFromBuffer` applied to
the `saveToBuffer` output reproduces the cartridge exactly — all slots,
`gameLine`, `exromLine`, `rom`, `blendedIn`, `lastBlendedIn` — consuming the
whole buffer, and the serialized length equals the precomputed `stateSize`. -/
theorem save_load_roundtrip (c : Cartridge) (h : c.wf) :
    Cartridge.loadFromBuffer c.saveToBuffer = (c, []) ∧
      c.saveToBuffer.length = c.stateSize := by
  obtain ⟨hsa, hsz, hch, hrom, hbl, hlbi, hba, hbz, hmatch⟩ := h
  constructor
  · obtain ⟨g, e, chips, starts, sizes, rom, bl, lbi⟩ := c
    simp only at hsa hsz hch hrom hbl hlbi hba hbz hmatch
    unfold Cartridge.saveToBuffer Cartridge.loadFromBuffer
    simp only [write8, List.cons_append, List.nil_append, read8_cons]
    have hload := loadChips_saveChips starts sizes chips
      (rom ++ (bl ++ [lbi % 256])) (hsa.trans hsz.symm) hmatch hba hbz
    rw [hsa] at hload
    simp only [List.append_assoc] at hload ⊢
    rw [show ((if g = true then 1 else 0) % 256 : Nat) = if g = true then 1 else 0
        by cases g <;> rfl,
      show ((if e = true then 1 else 0) % 256 : Nat) = if e = true then 1 else 0
        by cases e <;> rfl]
    rw [hload]
    simp only [← hrom, ← hbl]
    rw [readBlock_append rom (bl ++ [lbi % 256]), readBlock_append bl [lbi % 256]]
    simp only [read8_cons, Nat.mod_eq_of_lt hlbi]
    cases g <;> cases e <;> rfl
  · unfold Cartridge.saveToBuffer Cartridge.stateSize
    simp only [write8, List.length_append, List.length_cons, List.length_nil]
    rw [saveChips_length c.chipStartAddress c.chipSize c.chip
        (hsa.trans hsz.symm) hmatch,
      foldl_size_acc]
    omega

lemma c3cart_wf : c3cart.wf := by
  refine ⟨by decide, by decide, by decide, ?_, by decide, by decide, by decide,
    by decide, by decide⟩
  rw [show c3cart.rom = List.replicate 32768 0 from rfl, List.length_replicate]

theorem save_load_roundtrip_witness :
    c3cart.wf ∧
      (Cartridge.loadFromBuffer c3cart.saveToBuffer = (c3cart, []) ∧
        c3cart.saveToBuffer.length = c3cart.stateSize) :=
  ⟨c3cart_wf, save_load_roundtrip c3cart c3cart_wf⟩

/-! ## VIA bit-level helpers -/

lemma land_two_pow_ne_zero (x k : Nat) : x &&& 2 ^ k ≠ 0 ↔ x.testBit k = true := by
  have hp : (0 : Nat) < 2 ^ k := Nat.pos_pow_of_pos k (by decide)
  rw [Nat.and_two_pow]
  cases h : x.testBit k <;> simp [h] <;> omega

lemma land_128_ne_zero (v : Nat) : v &&& 128 ≠ 0 ↔ v.testBit 7 = true := by
  have h := land_two_pow_ne_zero v 7
  norm_num at h
  exact h

lemma land_two_pow_lor_left (x y k : Nat) (h : x &&& 2 ^ k ≠ 0) :
    (x ||| y) &&& 2 ^ k ≠ 0 := by
  rw [land_two_pow_ne_zero] at h ⊢
  simp [Nat.testBit_lor, h]

lemma postOneShotA0_eq : VIAPostOneShotA0 = 2 ^ 10 := by decide

/-! ## C5: IFR / IER write semantics -/

/-- C5: for every VIA state and byte `v`, `poke 0xD v` clears exactly the IFR
bits set in `v` and never sets any IFR bit; `poke 0xE v` with bit 7 of `v` set
sets the IER bits given by the low 7 bits of `v`, and with bit 7 clear clears
them instead; bit 7 of the stored IER is never persisted as 1, and an IFR
whose bit 7 is 0 keeps it 0. (Stated over the base-class `poke`, to which both
variants defer for 0xD/0xE, for arbitrary `updatePA`/`updatePB`.) -/
theorem poke_ifr_clear_only_ier_set_clear (updatePA : VIA → VIA)
    (updatePB : VIA → VIA × List DriveEv) (s : VIA) (v : Nat) (hv : v < 256) :
    ((∀ k, k < 8 →
        (VIA6522.poke updatePA updatePB 0xD v s).1.ifr.testBit k =
          (s.ifr.testBit k && !(v.testBit k))) ∧
      (∀ k, (VIA6522.poke updatePA updatePB 0xD v s).1.ifr.testBit k = true →
        s.ifr.testBit k = true) ∧
      (v.testBit 7 = true → ∀ k, k < 7 →
        (VIA6522.poke updatePA updatePB 0xE v s).1.ier.testBit k =
          (s.ier.testBit k || v.testBit k)) ∧
      (v.testBit 7 = false → ∀ k, k < 7 →
        (VIA6522.poke updatePA updatePB 0xE v s).1.ier.testBit k =
          (s.ier.testBit k && !(v.testBit k))) ∧
      (VIA6522.poke updatePA updatePB 0xE v s).1.ier.testBit 7 = false ∧
      (s.ifr.testBit 7 = false →
        (VIA6522.poke updatePA updatePB 0xD v s).1.ifr.testBit 7 = false)) := by
  have hD : (VIA6522.poke updatePA updatePB 0xD v s).1.ifr = s.ifr &&& (v ^^^ 255) := by
    simp [VIA6522.poke]
  have hE : (VIA6522.poke updatePA updatePB 0xE v s).1.ier =
      (if v &&& 0x80 ≠ 0 then s.ier ||| v else s.ier &&& (v ^^^ 255)) &&& 0x7F := by
    by_cases hb : v &&& 0x80 ≠ 0 <;> simp [VIA6522.poke, hb]
  have h255 : ∀ k, k < 8 → (255 : Nat).testBit k = true := by
    intro k hk; interval_cases k <;> decide
  have h127 : ∀ k, k < 7 → (127 : Nat).testBit k = true := by
    intro k hk; interval_cases k <;> decide
  refine ⟨?_, ?_, ?_, ?_, ?_, ?_⟩
  · intro k hk
    rw [hD, Nat.testBit_land, Nat.testBit_xor, h255 k hk]
    cases v.testBit k <;> cases s.ifr.testBit k <;> rfl
  · intro k h
    rw [hD, Nat.testBit_land] at h
    exact (Bool.and_eq_true_iff.mp h).1
  · intro h7 k hk
    rw [hE, if_pos ((land_128_ne_zero v).mpr h7), Nat.testBit_land,
      Nat.testBit_lor, show (0x7F : Nat) = 127 from rfl, h127 k hk, Bool.and_true]
  · intro h7 k hk
    have hb : ¬ v &&& 0x80 ≠ 0 := by
      simp only [ne_eq, not_not]
      by_contra hne
      exact absurd ((land_128_ne_zero v).mp hne) (by simp [h7])
    rw [hE, if_neg hb, Nat.testBit_land, Nat.testBit_land, Nat.testBit_xor,
      h255 k (by omega), show (0x7F : Nat) = 127 from rfl, h127 k hk, Bool.and_true]
    cases v.testBit k <;> cases s.ier.testBit k <;> rfl
  · rw [hE, Nat.testBit_land, show ((0x7F : Nat)).testBit 7 = false from rfl,
      Bool.and_false]
  · intro h7
    rw [hD, Nat.testBit_land, h7, Bool.false_and]

theorem poke_ifr_clear_only_ier_set_clear_witness :
    (0x52 : Nat) < 256 ∧
      (VIA6522.poke VIA2.updatePA (VIA2.updatePB true true) 0xD 0x52 c2state).1.ifr.testBit 6 =
        (c2state.ifr.testBit 6 && !((0x52 : Nat).testBit 6)) ∧
      (VIA6522.poke VIA2.updatePA (VIA2.updatePB true true) 0xE 0x52 c2state).1.ier.testBit 7 =
        false :=
  ⟨by decide,
    (poke_ifr_clear_only_ier_set_clear VIA2.updatePA (VIA2.updatePB true true)
      c2state 0x52 (by decide)).1 6 (by decide),
    (poke_ifr_clear_only_ier_set_clear VIA2.updatePA (VIA2.updatePB true true)
      c2state 0x52 (by decide)).2.2.2.2.1⟩

/-! ## C2: `read` is not side-effect-free -/

/-- C2: `read` is claimed side-effect-free for every VIA variant and address,
but `VIA2::read`'s default branch calls `VIA6522::peek`: on `c2state` (T1
interrupt flag pending) reading address 0x4 through `VIA2::read` clears IFR
bit 6, changing the VIA state. -/
theorem via2_read_0x4_clears_t1_flag :
    c2state.ifr = 0x40 ∧
      (VIA2.read true true 0x4 c2state).2.1.ifr = 0 ∧
      (VIA2.read true true 0x4 c2state).2.1 ≠ c2state := by
  refine ⟨by decide, by decide, ?_⟩
  decide

/-! ## C9: VIA2 stepper-motor decode -/

lemma land_three_eq_mod (x : Nat) : x &&& 3 = x % 4 := by
  have h := Nat.and_pow_two_sub_one_eq_mod x 2
  norm_num at h
  exact h

lemma updatePB_stepper (sync barrier : Bool) (s : VIA)
    (h0 : s.pb &&& 0x03 = 0) :
    (((VIA2.updatePB sync barrier s).1.pb &&& 0x03 = 1 →
        (VIA2.updatePB sync barrier s).2.count DriveEv.moveHeadUp = 1 ∧
        (VIA2.updatePB sync barrier s).2.count DriveEv.moveHeadDown = 0 ∧
        DriveEv.warnStepper ∉ (VIA2.updatePB sync barrier s).2) ∧
      ((VIA2.updatePB sync barrier s).1.pb &&& 0x03 = 3 →
        (VIA2.updatePB sync barrier s).2.count DriveEv.moveHeadDown = 1 ∧
        (VIA2.updatePB sync barrier s).2.count DriveEv.moveHeadUp = 0 ∧
        DriveEv.warnStepper ∉ (VIA2.updatePB sync barrier s).2) ∧
      ((VIA2.updatePB sync barrier s).1.pb &&& 0x03 = 2 →
        DriveEv.warnStepper ∈ (VIA2.updatePB sync barrier s).2 ∧
        (VIA2.updatePB sync barrier s).2.count DriveEv.moveHeadUp = 0 ∧
        (VIA2.updatePB sync barrier s).2.count DriveEv.moveHeadDown = 0)) := by
  simp only [VIA2.updatePB]
  simp only [land_three_eq_mod] at h0 ⊢
  refine ⟨?_, ?_, ?_⟩ <;> intro h <;>
    split_ifs <;>
      first
        | omega
        | simp_all [List.count_append, List.count_cons]

/-- C9: a `VIA2` poke to port B (address 0x0) whose resulting effective port B
value moves bits 0-1 from 0b00 to 0b01 emits exactly one `moveHeadUp` call (and
no `moveHeadDown`, no warning); a transition 0b00 → 0b11 emits exactly one
`moveHeadDown`; a transition 0b00 → 0b10 logs the invalid-sequence warning and
moves the head neither way. -/
theorem via2_pokeORB_stepper_decode (sync barrier : Bool) (s : VIA) (v : Nat)
    (h0 : s.pb &&& 0x03 = 0) :
    (((VIA2.poke sync barrier 0x0 v s).1.pb &&& 0x03 = 1 →
        (VIA2.poke sync barrier 0x0 v s).2.count DriveEv.moveHeadUp = 1 ∧
        (VIA2.poke sync barrier 0x0 v s).2.count DriveEv.moveHeadDown = 0 ∧
        DriveEv.warnStepper ∉ (VIA2.poke sync barrier 0x0 v s).2) ∧
      ((VIA2.poke sync barrier 0x0 v s).1.pb &&& 0x03 = 3 →
        (VIA2.poke sync barrier 0x0 v s).2.count DriveEv.moveHeadDown = 1 ∧
        (VIA2.poke sync barrier 0x0 v s).2.count DriveEv.moveHeadUp = 0 ∧
        DriveEv.warnStepper ∉ (VIA2.poke sync barrier 0x0 v s).2) ∧
      ((VIA2.poke sync barrier 0x0 v s).1.pb &&& 0x03 = 2 →
        DriveEv.warnStepper ∈ (VIA2.poke sync barrier 0x0 v s).2 ∧
        (VIA2.poke sync barrier 0x0 v s).2.count DriveEv.moveHeadUp = 0 ∧
        (VIA2.poke sync barrier 0x0 v s).2.count DriveEv.moveHeadDown = 0)) := by
  have hbase : VIA6522.poke VIA2.updatePA (VIA2.updatePB sync barrier) 0x0 v s =
      (if shouldClearCB2onWrite { s with ifr := s.ifr &&& 0xEF } then
        { s with ifr := s.ifr &&& 0xEF &&& 0xF7 }
      else { s with ifr := s.ifr &&& 0xEF }, []) := by
    simp only [VIA6522.poke, reduceIte]
  have hpoke : VIA2.poke sync barrier 0x0 v s =
      ((VIA2.updatePB sync barrier
          { (VIA6522.poke VIA2.updatePA (VIA2.updatePB sync barrier) 0x0 v s).1
              with orb := v }).1,
        (VIA2.updatePB sync barrier
          { (VIA6522.poke VIA2.updatePA (VIA2.updatePB sync barrier) 0x0 v s).1
              with orb := v }).2) := by
    rw [VIA2.poke, if_pos rfl, hbase]
    simp
  set s3 := { (VIA6522.poke VIA2.updatePA (VIA2.updatePB sync barrier) 0x0 v s).1
      with orb := v } with hs3
  have hpb3 : s3.pb = s.pb := by
    rw [hs3, hbase]
    split_ifs <;> rfl
  have hstep := updatePB_stepper sync barrier s3 (by rw [hpb3]; exact h0)
  rw [hpoke]
  exact hstep

theorem via2_pokeORB_stepper_decode_witness :
    (({ VIA6522.reset with ddrb := 0xFF } : VIA).pb &&& 0x03 = 0 ∧
        (VIA2.poke true true 0x0 0x01 { VIA6522.reset with ddrb := 0xFF }).1.pb &&& 0x03 = 1) ∧
      (VIA2.poke true true 0x0 0x01 { VIA6522.reset with ddrb := 0xFF }).2.count
          DriveEv.moveHeadUp = 1 ∧
      (VIA2.poke true true 0x0 0x01 { VIA6522.reset with ddrb := 0xFF }).2.count
          DriveEv.moveHeadDown = 0 ∧
      DriveEv.warnStepper ∉
        (VIA2.poke true true 0x0 0x01 { VIA6522.reset with ddrb := 0xFF }).2 :=
  ⟨⟨by decide, by decide⟩,
    (via2_pokeORB_stepper_decode true true { VIA6522.reset with ddrb := 0xFF } 0x01
      (by decide)).1 (by decide)⟩

/-! ## C1 / C4: timer 1 firing

Once `VIAPostOneShotA0` is in `feed`, nothing inside `execute` clears it, so
timer 1 never fires again (no interrupt flag, no PB7 toggle) until a poke to
the T1 high-order register removes the marker. -/

lemma lor_postA0_ne (x : Nat) : (x ||| VIAPostOneShotA0) &&& VIAPostOneShotA0 ≠ 0 := by
  rw [postOneShotA0_eq, land_two_pow_ne_zero, Nat.testBit_lor]
  simp only [Bool.or_eq_true]
  exact Or.inr (by decide)

lemma executeTimer1_blocked (s : VIA) (h : s.feed &&& VIAPostOneShotA0 ≠ 0) :
    (VIA6522.executeTimer1 s).ifr = s.ifr ∧
      (VIA6522.executeTimer1 s).pb7toggle = s.pb7toggle ∧
      (VIA6522.executeTimer1 s).feed &&& VIAPostOneShotA0 ≠ 0 := by
  simp only [VIA6522.executeTimer1, freeRunMode1]
  split_ifs <;> simp_all [lor_postA0_ne]

lemma executeTimer2_step (s : VIA) :
    ((VIA6522.executeTimer2 s).ifr = s.ifr ∨
        (VIA6522.executeTimer2 s).ifr = s.ifr ||| 0x20) ∧
      (VIA6522.executeTimer2 s).pb7toggle = s.pb7toggle ∧
      ((VIA6522.executeTimer2 s).feed = s.feed ∨
        (VIA6522.executeTimer2 s).feed = s.feed ||| VIAPostOneShotB0) := by
  simp only [VIA6522.executeTimer2]
  split_ifs <;> simp

lemma execute_tail_fields (s : VIA) :
    (VIA6522.execute s).ifr = (VIA6522.executeTimer2 (VIA6522.executeTimer1 s)).ifr ∧
      (VIA6522.execute s).pb7toggle =
        (VIA6522.executeTimer2 (VIA6522.executeTimer1 s)).pb7toggle ∧
      (VIA6522.execute s).feed =
        (VIA6522.executeTimer2 (VIA6522.executeTimer1 s)).feed := by
  simp only [VIA6522.execute]
  split_ifs <;> simp

lemma execute_blocked (s : VIA) (h : s.feed &&& VIAPostOneShotA0 ≠ 0) :
    (VIA6522.execute s).feed &&& VIAPostOneShotA0 ≠ 0 ∧
      (VIA6522.execute s).pb7toggle = s.pb7toggle ∧
      (VIA6522.execute s).ifr.testBit 6 = s.ifr.testBit 6 := by
  obtain ⟨h1i, h1p, h1f⟩ := executeTimer1_blocked s h
  obtain ⟨h2i, h2p, h2f⟩ := executeTimer2_step (VIA6522.executeTimer1 s)
  obtain ⟨hti, htp, htf⟩ := execute_tail_fields s
  refine ⟨?_, ?_, ?_⟩
  · rw [htf]
    rcases h2f with h2f | h2f <;> rw [h2f]
    · exact h1f
    · rw [postOneShotA0_eq] at h1f ⊢
      exact land_two_pow_lor_left _ _ _ h1f
  · rw [htp, h2p, h1p]
  · rw [hti]
    rcases h2i with h2i | h2i <;> rw [h2i]
    · rw [h1i]
    · rw [Nat.testBit_lor, h1i, show ((0x20 : Nat)).testBit 6 = false from rfl,
        Bool.or_false]

lemma executeN_blocked (n : Nat) :
    ∀ s : VIA, s.feed &&& VIAPostOneShotA0 ≠ 0 →
      (VIA6522.executeN n s).feed &&& VIAPostOneShotA0 ≠ 0 ∧
        (VIA6522.executeN n s).pb7toggle = s.pb7toggle ∧
        (VIA6522.executeN n s).ifr.testBit 6 = s.ifr.testBit 6 := by
  induction n with
  | zero => exact fun s h => ⟨h, rfl, rfl⟩
  | succ n ih =>
    intro s h
    obtain ⟨hf, hp, hi⟩ := execute_blocked s h
    obtain ⟨hf2, hp2, hi2⟩ := ih (VIA6522.execute s) hf
    exact ⟨hf2, hp2.trans hp, hi2.trans hi⟩

/-- C4 (counterexample): starting from a freshly reset VIA, after
`poke(0xB,0x00)`, `poke(0x4,0x05)`, `poke(0x5,0x00)` and exactly 6 `execute()`
steps, IFR bit 6 is NOT set, PB7 has NOT toggled, and T1 is 1 (not 0xFFFF):
the count-enable pipeline needs two warm-up cycles after reset, so the
interrupt fires at step 7, not within 6 steps. -/
theorem one_shot_scenario_after_6_steps :
    (VIA6522.executeN 6 c4setup).ifr.testBit 6 = false ∧
      (VIA6522.executeN 6 c4setup).pb7toggle = false ∧
      (VIA6522.executeN 6 c4setup).t1 = 1 := by
  refine ⟨?_, ?_, ?_⟩ <;> decide

/-- C4 (amended): starting from a freshly reset VIA, the poke sequence
`0xB ← 0x00`, `0x4 ← 0x05`, `0x5 ← 0x00` followed by 8 `execute()` steps (not
6: the pipeline needs two warm-up cycles after reset, so T1 reaches zero and
fires at step 7 and wraps at step 8) leaves IFR bit 6 set, T1 = 0xFFFF by
over-decrement, and PB7 toggled exactly once (false through step 6, true from
step 7 on); further steps without another T1 high-latch write never toggle PB7
or re-set IFR bit 6 again. -/
theorem one_shot_scenario_fires_once :
    (VIA6522.executeN 8 c4setup).ifr.testBit 6 = true ∧
      (VIA6522.executeN 8 c4setup).t1 = 0xFFFF ∧
      (VIA6522.executeN 8 c4setup).pb7toggle = true ∧
      (∀ j, j < 7 → (VIA6522.executeN j c4setup).pb7toggle = false) ∧
      (∀ k, (VIA6522.executeN k (VIA6522.executeN 8 c4setup)).pb7toggle = true ∧
            (VIA6522.executeN k (VIA6522.executeN 8 c4setup)).ifr.testBit 6 = true) := by
  refine ⟨by decide, by decide, by decide, ?_, ?_⟩
  · intro j hj
    interval_cases j <;> decide
  · intro k
    have hfeed : (VIA6522.executeN 8 c4setup).feed &&& VIAPostOneShotA0 ≠ 0 := by
      decide
    obtain ⟨-, hp, hi⟩ := executeN_blocked k (VIA6522.executeN 8 c4setup) hfeed
    exact ⟨hp.trans (by decide), hi.trans (by decide)⟩

theorem one_shot_scenario_fires_once_witness :
    (VIA6522.executeN 3 c4setup).pb7toggle = false :=
  one_shot_scenario_fires_once.2.2.2.1 3 (by decide)

/-- C1: with ACR = 0x40 (T1 free-run) and latch 0x0003, the first T1 expiry
(cycle 5 from reset) sets IFR bit 6 — but `executeTimer1` feeds the
`VIAPostOneShotA0` marker unconditionally and only a T1 high-latch write
clears it, so after acknowledging the flag (poke 0xD ← 0x40) the counter
reaches zero again (4 cycles later) and on every later cycle the flag is never
set again and PB7 never toggles again: free-run fires only once per explicit
load, contradicting the claim (and the datasheet quoted in the source). -/
theorem free_run_fires_only_once :
    (VIA6522.executeN 5 c1setup).ifr.testBit 6 = true ∧
      c1cleared.ifr.testBit 6 = false ∧
      (VIA6522.executeN 4 c1cleared).t1 = 0 ∧
      (∀ k, (VIA6522.executeN k c1cleared).ifr.testBit 6 = false ∧
            (VIA6522.executeN k c1cleared).pb7toggle = c1cleared.pb7toggle) := by
  refine ⟨by decide, by decide, by decide, ?_⟩
  intro k
  have hfeed : c1cleared.feed &&& VIAPostOneShotA0 ≠ 0 := by decide
  obtain ⟨-, hp, hi⟩ := executeN_blocked k c1cleared hfeed
  exact ⟨hi.trans (by decide), hp⟩

end VC64
